import Mathlib

set_option maxHeartbeats 1000000
set_option maxRecDepth 4000

/-!
Verification of the reproduction driver `ReproduceResults.py` of the
ObservationMHN repository.

The script orchestrates an external library (`mhn.optimizers`): for each of
two hardcoded datasets it seeds NumPy's random state, builds an oMHN and a
cMHN optimizer, configures a SYM_SPARSE penalty, loads the dataset CSV,
selects a regularization strength by cross-validation, trains, and saves the
result.  The external library is not part of the repository; it is embedded
here as an opaque deterministic oracle (`Library`), parameterizing every
theorem.  The driver itself is embedded as a pure state-passing function
that records a trace of the calls it makes and the files it writes.
-/

/-- Modelled from the spec: the two optimizer variants provided by the
external library ("omega"/penalized `oMHNOptimizer` and "classical"
state-space `cMHNOptimizer`). -/
inductive Variant where
  | oMHN
  | cMHN
deriving DecidableEq

/-- Modelled from the spec: the external library's `Penalty` enumeration;
the spec lists the kinds as "kind ∈ \x7bSYM_SPARSE, …\x7d", so every kind
other than `SYM_SPARSE` is abstracted into `OTHER`. -/
inductive Penalty where
  | SYM_SPARSE
  | OTHER (tag : Nat)
deriving DecidableEq

/-- The keyword arguments of `lambda_from_cv` (lines 17 and 26 of
`ReproduceResults.py`): `lambda_min=0.0001, lambda_max=0.1, steps=9,
nfolds=5, show_progressbar=True`. -/
structure CVParams where
  lambda_min : Rat
  lambda_max : Rat
  steps : Nat
  nfolds : Nat
  show_progressbar : Bool
deriving DecidableEq

/-- The cross-validation arguments used by both calls in the driver. -/
def cvArgs : CVParams :=
  { lambda_min := 1/10000, lambda_max := 1/10, steps := 9, nfolds := 5,
    show_progressbar := true }

/-- One observable step of the driver.  Optimizer instances are identified
by the order of their construction (`id`); the calls that consume the
library's random state record the state before (`rngIn`) and after
(`rngOut`) the call. -/
inductive Event where
  | seed (n : Nat)
  | printMsg (msg : String)
  | construct (id : Nat) (v : Variant)
  | setPenalty (id : Nat) (k : Penalty)
  | loadData (id : Nat) (path : String)
  | lambdaFromCV (id : Nat) (ps : CVParams) (rngIn rngOut : Nat) (ret : Rat)
  | train (id : Nat) (lam : Rat) (rngIn rngOut : Nat)
  | save (id : Nat) (path : String) (bytes : String)
deriving DecidableEq

/-- Modelled from the spec: the opaque collaborator API surface of the
external `mhn` library.  Dataset contents, fitted results and serialized
bytes are abstracted as strings; the library's random state as a `Nat`.
`parseCSV` turns file contents into a dataset or fails; `cvLambda` is the
cross-validated lambda search and `trainFn` the training call, both
deterministic functions of the variant, configured penalty, data,
arguments and incoming random state, returning their result together with
the successor random state. -/
structure Library where
  parseCSV : String → Except String String
  cvLambda : Variant → Option Penalty → String → CVParams → Nat → Rat × Nat
  trainFn : Variant → Option Penalty → String → Rat → Nat → String × Nat

/-- The filesystem the driver reads from: a map from path to file contents
(`none` means the file does not exist). -/
def FS : Type := String → Option String

/-- Modelled from the spec: `load_data_from_csv(path)` reads the file at
`path` and parses it; a missing file or a parse failure raises, embedded
as `Except.error`. -/
def load_data_from_csv (L : Library) (fs : FS) (path : String) :
    Except String String :=
  match fs path with
  | none => Except.error ("FileNotFoundError: " ++ path)
  | some content => L.parseCSV content

/-- The mutable state threaded through the run: the library's random state,
the next fresh optimizer id, the trace of events so far, and the list of
(path, bytes) files written so far, in order. -/
structure RunState where
  rng : Nat
  nextId : Nat
  trace : List Event
  outputs : List (String × String)

/-- Embedding of `compute_mhns_for_data(path, output_name)`
(`ReproduceResults.py` lines 11-29), one `let` per source line.  A raised
exception is returned as `some e` together with the state at the point of
the raise. -/
def compute_mhns_for_data (L : Library) (fs : FS) (path output_name : String)
    (s : RunState) : RunState × Option String :=
  -- line 12: np.random.seed(0)
  let s := { s with rng := 0, trace := s.trace ++ [Event.seed 0] }
  -- line 13: print(f"Learn oMHN for {output_name}")
  let s := { s with trace := s.trace ++ [Event.printMsg ("Learn oMHN for " ++ output_name)] }
  -- line 14: omega_opt = oMHNOptimizer()
  let oid := s.nextId
  let s := { s with nextId := s.nextId + 1,
                    trace := s.trace ++ [Event.construct oid Variant.oMHN] }
  -- line 15: omega_opt.set_penalty(omega_opt.Penalty.SYM_SPARSE)
  let s := { s with trace := s.trace ++ [Event.setPenalty oid Penalty.SYM_SPARSE] }
  -- line 16: omega_opt.load_data_from_csv(path)
  let s := { s with trace := s.trace ++ [Event.loadData oid path] }
  match load_data_from_csv L fs path with
  | Except.error e => (s, some e)
  | Except.ok odata =>
    -- line 17: optimal_lambda = omega_opt.lambda_from_cv(lambda_min=0.0001,
    --          lambda_max=0.1, steps=9, nfolds=5, show_progressbar=True)
    let p1 := L.cvLambda Variant.oMHN (some Penalty.SYM_SPARSE) odata cvArgs s.rng
    let optimal_lambda := p1.1
    let s := { s with rng := p1.2,
                      trace := s.trace ++ [Event.lambdaFromCV oid cvArgs s.rng p1.2 p1.1] }
    -- line 18: print(f"optimal lambda: {optimal_lambda}")
    let s := { s with trace := s.trace ++ [Event.printMsg ("optimal lambda: " ++ toString optimal_lambda)] }
    -- line 19: omega_opt.train(lam=optimal_lambda)
    let q1 := L.trainFn Variant.oMHN (some Penalty.SYM_SPARSE) odata optimal_lambda s.rng
    let s := { s with rng := q1.2,
                      trace := s.trace ++ [Event.train oid optimal_lambda s.rng q1.2] }
    -- line 20: omega_opt.result.save(f"results/{output_name}_oMHN.csv")
    let opath := "results/" ++ output_name ++ "_oMHN.csv"
    let s := { s with trace := s.trace ++ [Event.save oid opath q1.1],
                      outputs := s.outputs ++ [(opath, q1.1)] }
    -- line 22: print(f"Learn cMHN for {output_name}")
    let s := { s with trace := s.trace ++ [Event.printMsg ("Learn cMHN for " ++ output_name)] }
    -- line 23: classical_opt = cMHNOptimizer()
    let cid := s.nextId
    let s := { s with nextId := s.nextId + 1,
                      trace := s.trace ++ [Event.construct cid Variant.cMHN] }
    -- line 24: classical_opt.load_data_from_csv(path)
    let s := { s with trace := s.trace ++ [Event.loadData cid path] }
    match load_data_from_csv L fs path with
    | Except.error e => (s, some e)
    | Except.ok cdata =>
      -- line 25: classical_opt.set_penalty(classical_opt.Penalty.SYM_SPARSE)
      let s := { s with trace := s.trace ++ [Event.setPenalty cid Penalty.SYM_SPARSE] }
      -- line 26: optimal_lambda = classical_opt.lambda_from_cv(lambda_min=0.0001,
      --          lambda_max=0.1, steps=9, nfolds=5, show_progressbar=True)
      let p2 := L.cvLambda Variant.cMHN (some Penalty.SYM_SPARSE) cdata cvArgs s.rng
      let s := { s with rng := p2.2,
                        trace := s.trace ++ [Event.lambdaFromCV cid cvArgs s.rng p2.2 p2.1] }
      -- line 27: print(f"optimal lambda: {optimal_lambda}")
      let s := { s with trace := s.trace ++ [Event.printMsg ("optimal lambda: " ++ toString p2.1)] }
      -- line 28: classical_opt.train(lam=optimal_lambda)
      let q2 := L.trainFn Variant.cMHN (some Penalty.SYM_SPARSE) cdata p2.1 s.rng
      let s := { s with rng := q2.2,
                        trace := s.trace ++ [Event.train cid p2.1 s.rng q2.2] }
      -- line 29: classical_opt.result.save(f"results/{output_name}_cMHN.csv")
      let cpath := "results/" ++ output_name ++ "_cMHN.csv"
      let s := { s with trace := s.trace ++ [Event.save cid cpath q2.1],
                        outputs := s.outputs ++ [(cpath, q2.1)] }
      (s, none)

/-- Line 7 of `ReproduceResults.py`. -/
def PATH_TO_COAD_CSV : String := "data/COAD_n12.csv"

/-- Line 8 of `ReproduceResults.py`. -/
def PATH_TO_LUAD_CSV : String := "data/LUAD_n12.csv"

/-- The state a run starts in: no events, no outputs, no optimizers, and an
arbitrary ambient random state `r0` (the driver seeds before using it). -/
def initState (r0 : Nat) : RunState :=
  { rng := r0, nextId := 0, trace := [], outputs := [] }

namespace ReproduceResults

/-- Embedding of `main()` (lines 32-37): process COAD, then LUAD; an
exception raised in the first call propagates and the second never runs. -/
def main (L : Library) (fs : FS) (r0 : Nat) : RunState × Option String :=
  match compute_mhns_for_data L fs PATH_TO_COAD_CSV "COAD" (initState r0) with
  | (s, some e) => (s, some e)
  | (s, none) => compute_mhns_for_data L fs PATH_TO_LUAD_CSV "LUAD" s

end ReproduceResults

/-- The events appended by a `compute_mhns_for_data` call that aborts
because `load_data_from_csv` raises at line 16: seed, progress message,
construction of the omega optimizer (fresh id `n`), its penalty
configuration, and the failed load. -/
def loadFailTail (n : Nat) (path name : String) : List Event :=
  [Event.seed 0,
   Event.printMsg ("Learn oMHN for " ++ name),
   Event.construct n Variant.oMHN,
   Event.setPenalty n Penalty.SYM_SPARSE,
   Event.loadData n path]

/-- The events appended by one successful `compute_mhns_for_data` call on
dataset contents `d`, starting with fresh optimizer id `n` (the closed form
is proved in `compute_mhns_ok`). -/
def datasetTail (L : Library) (d path name : String) (n : Nat) : List Event :=
  let p1 := L.cvLambda Variant.oMHN (some Penalty.SYM_SPARSE) d cvArgs 0
  let q1 := L.trainFn Variant.oMHN (some Penalty.SYM_SPARSE) d p1.1 p1.2
  let p2 := L.cvLambda Variant.cMHN (some Penalty.SYM_SPARSE) d cvArgs q1.2
  let q2 := L.trainFn Variant.cMHN (some Penalty.SYM_SPARSE) d p2.1 p2.2
  [Event.seed 0,
   Event.printMsg ("Learn oMHN for " ++ name),
   Event.construct n Variant.oMHN,
   Event.setPenalty n Penalty.SYM_SPARSE,
   Event.loadData n path,
   Event.lambdaFromCV n cvArgs 0 p1.2 p1.1,
   Event.printMsg ("optimal lambda: " ++ toString p1.1),
   Event.train n p1.1 p1.2 q1.2,
   Event.save n ("results/" ++ name ++ "_oMHN.csv") q1.1,
   Event.printMsg ("Learn cMHN for " ++ name),
   Event.construct (n+1) Variant.cMHN,
   Event.loadData (n+1) path,
   Event.setPenalty (n+1) Penalty.SYM_SPARSE,
   Event.lambdaFromCV (n+1) cvArgs q1.2 p2.2 p2.1,
   Event.printMsg ("optimal lambda: " ++ toString p2.1),
   Event.train (n+1) p2.1 p2.2 q2.2,
   Event.save (n+1) ("results/" ++ name ++ "_cMHN.csv") q2.1]

/-- The two files written by one successful `compute_mhns_for_data` call. -/
def datasetOutputs (L : Library) (d name : String) : List (String × String) :=
  let p1 := L.cvLambda Variant.oMHN (some Penalty.SYM_SPARSE) d cvArgs 0
  let q1 := L.trainFn Variant.oMHN (some Penalty.SYM_SPARSE) d p1.1 p1.2
  let p2 := L.cvLambda Variant.cMHN (some Penalty.SYM_SPARSE) d cvArgs q1.2
  let q2 := L.trainFn Variant.cMHN (some Penalty.SYM_SPARSE) d p2.1 p2.2
  [("results/" ++ name ++ "_oMHN.csv", q1.1),
   ("results/" ++ name ++ "_cMHN.csv", q2.1)]

/-- The library random state left behind by one successful
`compute_mhns_for_data` call. -/
def datasetFinalRng (L : Library) (d : String) : Nat :=
  let p1 := L.cvLambda Variant.oMHN (some Penalty.SYM_SPARSE) d cvArgs 0
  let q1 := L.trainFn Variant.oMHN (some Penalty.SYM_SPARSE) d p1.1 p1.2
  let p2 := L.cvLambda Variant.cMHN (some Penalty.SYM_SPARSE) d cvArgs q1.2
  (L.trainFn Variant.cMHN (some Penalty.SYM_SPARSE) d p2.1 p2.2).2

/-- Does the event reseed the library's random state? -/
def isSeed : Event → Bool
  | Event.seed _ => true
  | _ => false

/-- Is the event a cross-validated lambda-selection call (of any instance)? -/
def isLambdaCv : Event → Bool
  | Event.lambdaFromCV _ _ _ _ _ => true
  | _ => false

/-- The configuration/selection/training calls of optimizer instance `i`:
`set_penalty`, `lambda_from_cv` and `train`. -/
def cfgEventsOf (i : Nat) : Event → Bool
  | Event.setPenalty j _ => j == i
  | Event.lambdaFromCV j _ _ _ _ => j == i
  | Event.train j _ _ _ => j == i
  | _ => false

/-- The `set_penalty` and `load_data_from_csv` calls of optimizer
instance `i`. -/
def spOrLoadOf (i : Nat) : Event → Bool
  | Event.setPenalty j _ => j == i
  | Event.loadData j _ => j == i
  | _ => false

/-- The `set_penalty` and `train` calls of optimizer instance `i`. -/
def spOrTrainOf (i : Nat) : Event → Bool
  | Event.setPenalty j _ => j == i
  | Event.train j _ _ _ => j == i
  | _ => false

/-- All method calls on optimizer instance `i`, construction and result
persistence included. -/
def instEventsOf (i : Nat) : Event → Bool
  | Event.construct j _ => j == i
  | Event.setPenalty j _ => j == i
  | Event.loadData j _ => j == i
  | Event.lambdaFromCV j _ _ _ _ => j == i
  | Event.train j _ _ _ => j == i
  | Event.save j _ _ => j == i
  | _ => false

/-- The events that read or write the library's random state: reseeds,
lambda searches and training calls. -/
def rngEvents : Event → Bool
  | Event.seed _ => true
  | Event.lambdaFromCV _ _ _ _ _ => true
  | Event.train _ _ _ _ => true
  | _ => false

/-- A concrete deterministic instantiation of the external library, used to
evaluate the theorems on closed runs: parsing is the identity, the lambda
search returns 1/2 and steps the random state, training serializes the
dataset and steps the random state. -/
def testLib : Library :=
  { parseCSV := fun c => Except.ok c,
    cvLambda := fun _ _ _ _ r => (1/2, r + 1),
    trainFn := fun _ _ d _ r => ("fit:" ++ d, r + 1) }

/-- A filesystem on which every path holds the same small dataset. -/
def testFS : FS := fun _ => some "rows"

/-- A filesystem on which only the COAD dataset file exists. -/
def coadOnlyFS : FS :=
  fun p => if p = PATH_TO_COAD_CSV then some "rows" else none

/-- A filesystem with no files at all. -/
def emptyFS : FS := fun _ => none

/-- The trace of the closed test run. -/
def testTrace : List Event :=
  (ReproduceResults.main testLib testFS 0).1.trace

/-- Closed form of a `compute_mhns_for_data` call whose load raises. -/
theorem compute_mhns_err (L : Library) (fs : FS) (path name : String)
    (s : RunState) (e : String)
    (h : load_data_from_csv L fs path = Except.error e) :
    compute_mhns_for_data L fs path name s =
      ({ rng := 0, nextId := s.nextId + 1,
         trace := s.trace ++ loadFailTail s.nextId path name,
         outputs := s.outputs }, some e) := by
  simp [compute_mhns_for_data, h, loadFailTail]

/-- Closed form of a successful `compute_mhns_for_data` call. -/
theorem compute_mhns_ok (L : Library) (fs : FS) (path name : String)
    (s : RunState) (d : String)
    (h : load_data_from_csv L fs path = Except.ok d) :
    compute_mhns_for_data L fs path name s =
      ({ rng := datasetFinalRng L d, nextId := s.nextId + 2,
         trace := s.trace ++ datasetTail L d path name s.nextId,
         outputs := s.outputs ++ datasetOutputs L d name }, none) := by
  simp [compute_mhns_for_data, h, datasetTail, datasetOutputs, datasetFinalRng]

namespace ReproduceResults

/-- Closed form of a run whose COAD load raises. -/
theorem main_err (L : Library) (fs : FS) (r0 : Nat) (e : String)
    (hC : load_data_from_csv L fs PATH_TO_COAD_CSV = Except.error e) :
    main L fs r0 =
      ({ rng := 0, nextId := 1,
         trace := loadFailTail 0 PATH_TO_COAD_CSV "COAD",
         outputs := [] }, some e) := by
  simp only [main]
  rw [compute_mhns_err L fs PATH_TO_COAD_CSV "COAD" (initState r0) e hC]
  simp [initState]

/-- Closed form of a run whose COAD phase succeeds and whose LUAD load
raises. -/
theorem main_mid (L : Library) (fs : FS) (r0 : Nat) (dC e : String)
    (hC : load_data_from_csv L fs PATH_TO_COAD_CSV = Except.ok dC)
    (hL : load_data_from_csv L fs PATH_TO_LUAD_CSV = Except.error e) :
    main L fs r0 =
      ({ rng := 0, nextId := 3,
         trace := datasetTail L dC PATH_TO_COAD_CSV "COAD" 0 ++
                  loadFailTail 2 PATH_TO_LUAD_CSV "LUAD",
         outputs := datasetOutputs L dC "COAD" }, some e) := by
  simp only [main]
  rw [compute_mhns_ok L fs PATH_TO_COAD_CSV "COAD" (initState r0) dC hC]
  dsimp only
  rw [compute_mhns_err L fs PATH_TO_LUAD_CSV "LUAD" _ e hL]
  simp [initState]

/-- Closed form of a fully successful run. -/
theorem main_ok (L : Library) (fs : FS) (r0 : Nat) (dC dL : String)
    (hC : load_data_from_csv L fs PATH_TO_COAD_CSV = Except.ok dC)
    (hL : load_data_from_csv L fs PATH_TO_LUAD_CSV = Except.ok dL) :
    main L fs r0 =
      ({ rng := datasetFinalRng L dL, nextId := 4,
         trace := datasetTail L dC PATH_TO_COAD_CSV "COAD" 0 ++
                  datasetTail L dL PATH_TO_LUAD_CSV "LUAD" 2,
         outputs := datasetOutputs L dC "COAD" ++ datasetOutputs L dL "LUAD" },
       none) := by
  simp only [main]
  rw [compute_mhns_ok L fs PATH_TO_COAD_CSV "COAD" (initState r0) dC hC]
  dsimp only
  rw [compute_mhns_ok L fs PATH_TO_LUAD_CSV "LUAD" _ dL hL]
  simp [initState]

end ReproduceResults

/-- C1: for a fixed pair of dataset CSV files and the fixed random seed,
two complete runs of the driver produce identical results — byte-identical
output artifacts included.  Two runs against the same deterministic
library whose filesystems agree on the two configured dataset paths (and
that start from arbitrary, possibly different, ambient random states)
return equal final states and equal outcomes, so the driver's output is a
deterministic function of its input files. -/
theorem main_deterministic (L : Library) (fs1 fs2 : FS) (r0 r1 : Nat)
    (h1 : fs1 PATH_TO_COAD_CSV = fs2 PATH_TO_COAD_CSV)
    (h2 : fs1 PATH_TO_LUAD_CSV = fs2 PATH_TO_LUAD_CSV) :
    ReproduceResults.main L fs1 r0 = ReproduceResults.main L fs2 r1 := by
  have hC : load_data_from_csv L fs1 PATH_TO_COAD_CSV =
      load_data_from_csv L fs2 PATH_TO_COAD_CSV := by
    simp [load_data_from_csv, h1]
  have hL : load_data_from_csv L fs1 PATH_TO_LUAD_CSV =
      load_data_from_csv L fs2 PATH_TO_LUAD_CSV := by
    simp [load_data_from_csv, h2]
  cases heC : load_data_from_csv L fs2 PATH_TO_COAD_CSV with
  | error e =>
    rw [ReproduceResults.main_err L fs1 r0 e (hC.trans heC),
        ReproduceResults.main_err L fs2 r1 e heC]
  | ok dC =>
    cases heL : load_data_from_csv L fs2 PATH_TO_LUAD_CSV with
    | error e =>
      rw [ReproduceResults.main_mid L fs1 r0 dC e (hC.trans heC) (hL.trans heL),
          ReproduceResults.main_mid L fs2 r1 dC e heC heL]
    | ok dL =>
      rw [ReproduceResults.main_ok L fs1 r0 dC dL (hC.trans heC) (hL.trans heL),
          ReproduceResults.main_ok L fs2 r1 dC dL heC heL]

/-- C1 witness: the closed test run evaluated from two different ambient
random states gives identical results. -/
theorem main_deterministic_witness :
    ReproduceResults.main testLib testFS 0 = ReproduceResults.main testLib testFS 1 :=
  main_deterministic testLib testFS testFS 0 1 rfl rfl

/-- C4: a successful run writes exactly two output artifacts per dataset
label, at the deterministic paths derived from label and variant name:
in order, results/COAD_oMHN.csv, results/COAD_cMHN.csv,
results/LUAD_oMHN.csv and results/LUAD_cMHN.csv, and nothing else. -/
theorem run_outputs_paths (L : Library) (fs : FS) (r0 : Nat)
    (h : (ReproduceResults.main L fs r0).2 = none) :
    (ReproduceResults.main L fs r0).1.outputs.map Prod.fst =
      ["results/COAD_oMHN.csv", "results/COAD_cMHN.csv",
       "results/LUAD_oMHN.csv", "results/LUAD_cMHN.csv"] := by
  cases heC : load_data_from_csv L fs PATH_TO_COAD_CSV with
  | error e => rw [ReproduceResults.main_err L fs r0 e heC] at h; simp at h
  | ok dC =>
    cases heL : load_data_from_csv L fs PATH_TO_LUAD_CSV with
    | error e =>
      rw [ReproduceResults.main_mid L fs r0 dC e heC heL] at h; simp at h
    | ok dL =>
      rw [ReproduceResults.main_ok L fs r0 dC dL heC heL]
      rfl

/-- C4 witness: the closed test run succeeds and writes exactly the four
artifact paths. -/
theorem run_outputs_paths_witness :
    (ReproduceResults.main testLib testFS 0).1.outputs.map Prod.fst =
      ["results/COAD_oMHN.csv", "results/COAD_cMHN.csv",
       "results/LUAD_oMHN.csv", "results/LUAD_cMHN.csv"] :=
  run_outputs_paths testLib testFS 0 rfl

/-- C5: if the CSV at a configured dataset path cannot be loaded, the run
terminates with the underlying exception propagating unhandled (`main`
returns it), and no output artifact for that dataset has been written: a
COAD failure leaves no outputs at all, and a LUAD failure (after a
successful COAD phase) leaves exactly the two COAD artifacts and no LUAD
one. -/
theorem abort_on_load_failure (L : Library) (fs : FS) (r0 : Nat) (e : String) :
    (load_data_from_csv L fs PATH_TO_COAD_CSV = Except.error e →
      (ReproduceResults.main L fs r0).2 = some e ∧
      (ReproduceResults.main L fs r0).1.outputs = []) ∧
    (∀ dC, load_data_from_csv L fs PATH_TO_COAD_CSV = Except.ok dC →
      load_data_from_csv L fs PATH_TO_LUAD_CSV = Except.error e →
      (ReproduceResults.main L fs r0).2 = some e ∧
      (ReproduceResults.main L fs r0).1.outputs.map Prod.fst =
        ["results/COAD_oMHN.csv", "results/COAD_cMHN.csv"]) := by
  constructor
  · intro h
    rw [ReproduceResults.main_err L fs r0 e h]
    exact ⟨rfl, rfl⟩
  · intro dC hC hL
    rw [ReproduceResults.main_mid L fs r0 dC e hC hL]
    exact ⟨rfl, rfl⟩

/-- C5 witness: on an empty filesystem the run aborts with the COAD load
failure and writes nothing; on a filesystem holding only the COAD file it
aborts with the LUAD load failure having written exactly the two COAD
artifacts. -/
theorem abort_on_load_failure_witness :
    ((ReproduceResults.main testLib emptyFS 0).2 =
        some ("FileNotFoundError: " ++ PATH_TO_COAD_CSV) ∧
      (ReproduceResults.main testLib emptyFS 0).1.outputs = []) ∧
    ((ReproduceResults.main testLib coadOnlyFS 0).2 =
        some ("FileNotFoundError: " ++ PATH_TO_LUAD_CSV) ∧
      (ReproduceResults.main testLib coadOnlyFS 0).1.outputs.map Prod.fst =
        ["results/COAD_oMHN.csv", "results/COAD_cMHN.csv"]) :=
  ⟨(abort_on_load_failure testLib emptyFS 0
      ("FileNotFoundError: " ++ PATH_TO_COAD_CSV)).1 rfl,
   (abort_on_load_failure testLib coadOnlyFS 0
      ("FileNotFoundError: " ++ PATH_TO_LUAD_CSV)).2 "rows" rfl rfl⟩

/-- C8: each dataset's processing starts by reseeding the external
library's random state to the fixed seed 0, before any optimizer for that
dataset is constructed, and this reseed happens exactly once per dataset:
whatever state a `compute_mhns_for_data` call starts in, the events it
appends begin with `seed 0` and contain no further seed event. -/
theorem seed_once_per_dataset (L : Library) (fs : FS) (path name : String)
    (s : RunState) :
    ∃ tl, (compute_mhns_for_data L fs path name s).1.trace =
        s.trace ++ (Event.seed 0 :: tl) ∧
      tl.all (fun e => !(isSeed e)) = true := by
  cases he : load_data_from_csv L fs path with
  | error e =>
    rw [compute_mhns_err L fs path name s e he]
    exact ⟨_, rfl, rfl⟩
  | ok d =>
    rw [compute_mhns_ok L fs path name s d he]
    exact ⟨_, rfl, rfl⟩

/-- C10: within a single dataset's processing the random state is never
reseeded between the oMHN phase and the cMHN phase.  Restricting the
events appended by a successful `compute_mhns_for_data` call to those that
touch the random state yields exactly one reseed, at the very front, after
which the state threads through the four library calls without
interruption: in particular the cMHN lambda search starts from exactly the
state `r2` that the oMHN training call left behind, so the cMHN fit is
reproducible only downstream of the oMHN fit. -/
theorem cmhn_phase_continues_rng (L : Library) (fs : FS) (path name : String)
    (s : RunState) (d : String)
    (hd : load_data_from_csv L fs path = Except.ok d) :
    ∃ tl r1 r2 r3 r4 lam1 lam2,
      (compute_mhns_for_data L fs path name s).1.trace = s.trace ++ tl ∧
      tl.filter rngEvents =
        [Event.seed 0,
         Event.lambdaFromCV s.nextId cvArgs 0 r1 lam1,
         Event.train s.nextId lam1 r1 r2,
         Event.lambdaFromCV (s.nextId + 1) cvArgs r2 r3 lam2,
         Event.train (s.nextId + 1) lam2 r3 r4] := by
  rw [compute_mhns_ok L fs path name s d hd]
  exact ⟨_, _, _, _, _, _, _, rfl, rfl⟩

/-- C10 witness: the closed form evaluated on the test run, COAD phase. -/
theorem cmhn_phase_continues_rng_witness :
    ∃ tl r1 r2 r3 r4 lam1 lam2,
      (compute_mhns_for_data testLib testFS PATH_TO_COAD_CSV "COAD"
          (initState 0)).1.trace = (initState 0).trace ++ tl ∧
      tl.filter rngEvents =
        [Event.seed 0,
         Event.lambdaFromCV (initState 0).nextId cvArgs 0 r1 lam1,
         Event.train (initState 0).nextId lam1 r1 r2,
         Event.lambdaFromCV ((initState 0).nextId + 1) cvArgs r2 r3 lam2,
         Event.train ((initState 0).nextId + 1) lam2 r3 r4] :=
  cmhn_phase_continues_rng testLib testFS PATH_TO_COAD_CSV "COAD"
    (initState 0) "rows" rfl

/-- C3: for every optimizer instance, `set_penalty` happens before
`lambda_from_cv`, and `lambda_from_cv` happens before `train`; the trace
never contains these calls in any other relative order.  For any run and
any instance id, the subsequence of the trace consisting of that
instance's penalty/selection/training calls is one of: empty, the penalty
call alone (a run aborted by a failed load), or exactly
`set_penalty`, then `lambda_from_cv`, then `train`. -/
theorem penalty_cv_train_order (L : Library) (fs : FS) (r0 : Nat) (i : Nat) :
    (ReproduceResults.main L fs r0).1.trace.filter (cfgEventsOf i) = [] ∨
    (ReproduceResults.main L fs r0).1.trace.filter (cfgEventsOf i) =
      [Event.setPenalty i Penalty.SYM_SPARSE] ∨
    ∃ ps rIn rOut ret lam tIn tOut,
      (ReproduceResults.main L fs r0).1.trace.filter (cfgEventsOf i) =
        [Event.setPenalty i Penalty.SYM_SPARSE,
         Event.lambdaFromCV i ps rIn rOut ret,
         Event.train i lam tIn tOut] := by
  cases heC : load_data_from_csv L fs PATH_TO_COAD_CSV with
  | error e =>
    rw [ReproduceResults.main_err L fs r0 e heC]
    rcases i with _ | _ | _ | _ | n
    · exact Or.inr (Or.inl rfl)
    · exact Or.inl rfl
    · exact Or.inl rfl
    · exact Or.inl rfl
    · exact Or.inl rfl
  | ok dC =>
    cases heL : load_data_from_csv L fs PATH_TO_LUAD_CSV with
    | error e =>
      rw [ReproduceResults.main_mid L fs r0 dC e heC heL]
      rcases i with _ | _ | _ | _ | n
      · exact Or.inr (Or.inr ⟨_, _, _, _, _, _, _, rfl⟩)
      · exact Or.inr (Or.inr ⟨_, _, _, _, _, _, _, rfl⟩)
      · exact Or.inr (Or.inl rfl)
      · exact Or.inl rfl
      · exact Or.inl rfl
    | ok dL =>
      rw [ReproduceResults.main_ok L fs r0 dC dL heC heL]
      rcases i with _ | _ | _ | _ | n
      · exact Or.inr (Or.inr ⟨_, _, _, _, _, _, _, rfl⟩)
      · exact Or.inr (Or.inr ⟨_, _, _, _, _, _, _, rfl⟩)
      · exact Or.inr (Or.inr ⟨_, _, _, _, _, _, _, rfl⟩)
      · exact Or.inr (Or.inr ⟨_, _, _, _, _, _, _, rfl⟩)
      · exact Or.inl rfl

/-- C6: the regularization strength passed to every `train` call is exactly
the scalar returned by the same instance's cross-validated lambda search
with the configured range and fold count: any `train` event in any run's
trace for instance `i` with strength `lam` is matched by a
`lambda_from_cv` event of the same instance, with the configured
arguments, returning that very `lam`. -/
theorem train_lambda_from_cv (L : Library) (fs : FS) (r0 : Nat) (i : Nat)
    (lam : Rat) (rIn rOut : Nat)
    (h : Event.train i lam rIn rOut ∈ (ReproduceResults.main L fs r0).1.trace) :
    ∃ cvIn cvOut,
      Event.lambdaFromCV i cvArgs cvIn cvOut lam ∈
        (ReproduceResults.main L fs r0).1.trace := by
  cases heC : load_data_from_csv L fs PATH_TO_COAD_CSV with
  | error e =>
    rw [ReproduceResults.main_err L fs r0 e heC] at h
    simp [loadFailTail] at h
  | ok dC =>
    cases heL : load_data_from_csv L fs PATH_TO_LUAD_CSV with
    | error e =>
      rw [ReproduceResults.main_mid L fs r0 dC e heC heL] at h ⊢
      simp [datasetTail, loadFailTail] at h
      rcases h with ⟨hi, hl, h1, h2⟩ | ⟨hi, hl, h1, h2⟩ <;>
        subst hi <;> subst hl <;>
        exact ⟨_, _, by repeat first | exact List.Mem.head _ | apply List.Mem.tail⟩
    | ok dL =>
      rw [ReproduceResults.main_ok L fs r0 dC dL heC heL] at h ⊢
      simp [datasetTail] at h
      rcases h with ⟨hi, hl, h1, h2⟩ | ⟨hi, hl, h1, h2⟩ | ⟨hi, hl, h1, h2⟩ | ⟨hi, hl, h1, h2⟩ <;>
        subst hi <;> subst hl <;>
        exact ⟨_, _, by repeat first | exact List.Mem.head _ | apply List.Mem.tail⟩

/-- C6 witness: in the closed test run, the COAD oMHN training strength 1/2
is the scalar its own lambda search returned. -/
theorem train_lambda_from_cv_witness :
    ∃ cvIn cvOut, Event.lambdaFromCV 0 cvArgs cvIn cvOut (1/2) ∈ testTrace :=
  train_lambda_from_cv testLib testFS 0 0 (1/2) 1 2
    (by rw [ReproduceResults.main_ok testLib testFS 0 "rows" "rows" rfl rfl]
        repeat first | exact List.Mem.head _ | apply List.Mem.tail)

/-- C7: every penalty ever configured by the driver is `SYM_SPARSE`, and
every instance that trains had its penalty set exactly once, before its
training call: the subsequence of the trace consisting of instance `i`'s
`set_penalty` and `train` calls is exactly the `SYM_SPARSE` configuration
followed by the single `train`. -/
theorem penalty_sym_sparse_only (L : Library) (fs : FS) (r0 : Nat) :
    (∀ i k, Event.setPenalty i k ∈ (ReproduceResults.main L fs r0).1.trace →
        k = Penalty.SYM_SPARSE) ∧
    (∀ i lam rIn rOut,
        Event.train i lam rIn rOut ∈ (ReproduceResults.main L fs r0).1.trace →
        (ReproduceResults.main L fs r0).1.trace.filter (spOrTrainOf i) =
          [Event.setPenalty i Penalty.SYM_SPARSE,
           Event.train i lam rIn rOut]) := by
  cases heC : load_data_from_csv L fs PATH_TO_COAD_CSV with
  | error e =>
    rw [ReproduceResults.main_err L fs r0 e heC]
    refine ⟨?_, ?_⟩
    · intro i k hk
      simp [loadFailTail] at hk
      exact hk.2
    · intro i lam rIn rOut ht
      simp [loadFailTail] at ht
  | ok dC =>
    cases heL : load_data_from_csv L fs PATH_TO_LUAD_CSV with
    | error e =>
      rw [ReproduceResults.main_mid L fs r0 dC e heC heL]
      refine ⟨?_, ?_⟩
      · intro i k hk
        simp [datasetTail, loadFailTail] at hk
        rcases hk with ⟨hi, hk⟩ | ⟨hi, hk⟩ | ⟨hi, hk⟩ <;> exact hk
      · intro i lam rIn rOut ht
        simp [datasetTail, loadFailTail] at ht
        rcases ht with ⟨hi, hl, h1, h2⟩ | ⟨hi, hl, h1, h2⟩ <;>
          subst hi <;> subst hl <;> subst h1 <;> subst h2 <;> rfl
    | ok dL =>
      rw [ReproduceResults.main_ok L fs r0 dC dL heC heL]
      refine ⟨?_, ?_⟩
      · intro i k hk
        simp [datasetTail] at hk
        rcases hk with ⟨hi, hk⟩ | ⟨hi, hk⟩ | ⟨hi, hk⟩ | ⟨hi, hk⟩ <;> exact hk
      · intro i lam rIn rOut ht
        simp [datasetTail] at ht
        rcases ht with ⟨hi, hl, h1, h2⟩ | ⟨hi, hl, h1, h2⟩ |
          ⟨hi, hl, h1, h2⟩ | ⟨hi, hl, h1, h2⟩ <;>
          subst hi <;> subst hl <;> subst h1 <;> subst h2 <;> rfl

/-- C7 witness: in the closed test run the COAD oMHN instance's penalty and
training subsequence is exactly the SYM_SPARSE configuration followed by
its train call. -/
theorem penalty_sym_sparse_only_witness :
    Penalty.SYM_SPARSE = Penalty.SYM_SPARSE ∧
    testTrace.filter (spOrTrainOf 0) =
      [Event.setPenalty 0 Penalty.SYM_SPARSE, Event.train 0 (1/2) 1 2] :=
  ⟨(penalty_sym_sparse_only testLib testFS 0).1 0 Penalty.SYM_SPARSE
      (by rw [ReproduceResults.main_ok testLib testFS 0 "rows" "rows" rfl rfl]
          repeat first | exact List.Mem.head _ | apply List.Mem.tail),
   (penalty_sym_sparse_only testLib testFS 0).2 0 (1/2) 1 2
      (by rw [ReproduceResults.main_ok testLib testFS 0 "rows" "rows" rfl rfl]
          repeat first | exact List.Mem.head _ | apply List.Mem.tail)⟩

/-- C9: every lambda-selection call in any run carries exactly the
hyperparameters of lines 17 and 26 — lambda_min 1/10000, lambda_max 1/10,
9 steps, 5 folds, progress bar on — and a successful run contains exactly
four such calls (oMHN and cMHN for each of the two datasets). -/
theorem cv_params_uniform (L : Library) (fs : FS) (r0 : Nat) :
    (∀ i ps cvIn cvOut ret,
        Event.lambdaFromCV i ps cvIn cvOut ret ∈
            (ReproduceResults.main L fs r0).1.trace →
        ps = { lambda_min := 1/10000, lambda_max := 1/10, steps := 9,
               nfolds := 5, show_progressbar := true }) ∧
    ((ReproduceResults.main L fs r0).2 = none →
      (ReproduceResults.main L fs r0).1.trace.countP isLambdaCv = 4) := by
  cases heC : load_data_from_csv L fs PATH_TO_COAD_CSV with
  | error e =>
    rw [ReproduceResults.main_err L fs r0 e heC]
    refine ⟨?_, ?_⟩
    · intro i ps a b r hm
      simp [loadFailTail] at hm
    · intro hn
      simp at hn
  | ok dC =>
    cases heL : load_data_from_csv L fs PATH_TO_LUAD_CSV with
    | error e =>
      rw [ReproduceResults.main_mid L fs r0 dC e heC heL]
      refine ⟨?_, ?_⟩
      · intro i ps a b r hm
        simp [datasetTail, loadFailTail] at hm
        rcases hm with ⟨hi, hps, h1, h2, h3⟩ | ⟨hi, hps, h1, h2, h3⟩ <;>
          subst hps <;> rfl
      · intro hn
        simp at hn
    | ok dL =>
      rw [ReproduceResults.main_ok L fs r0 dC dL heC heL]
      refine ⟨?_, ?_⟩
      · intro i ps a b r hm
        simp [datasetTail] at hm
        rcases hm with ⟨hi, hps, h1, h2, h3⟩ | ⟨hi, hps, h1, h2, h3⟩ |
          ⟨hi, hps, h1, h2, h3⟩ | ⟨hi, hps, h1, h2, h3⟩ <;>
          subst hps <;> rfl
      · intro hn
        rfl

/-- C9 witness: the closed test run's COAD oMHN lambda search carries the
configured hyperparameters, and the successful run contains exactly four
lambda searches. -/
theorem cv_params_uniform_witness :
    cvArgs = { lambda_min := 1/10000, lambda_max := 1/10, steps := 9,
               nfolds := 5, show_progressbar := true } ∧
    testTrace.countP isLambdaCv = 4 :=
  ⟨(cv_params_uniform testLib testFS 0).1 0 cvArgs 0 1 (1/2)
      (by rw [ReproduceResults.main_ok testLib testFS 0 "rows" "rows" rfl rfl]
          repeat first | exact List.Mem.head _ | apply List.Mem.tail),
   (cv_params_uniform testLib testFS 0).2 rfl⟩

/-- C2 counterexample: in the closed test run, the classical (cMHN)
optimizer for COAD is instance 1, and the subsequence of its `set_penalty`
and `load_data_from_csv` calls is the load first and the penalty
configuration second (lines 24-25 of the source), refuting the claim that
`set_penalty` is invoked before `load_data_from_csv` for the classical
optimizer just as for the omega one. -/
theorem classical_penalty_after_load :
    testTrace.filter (spOrLoadOf 1) =
      [Event.loadData 1 PATH_TO_COAD_CSV,
       Event.setPenalty 1 Penalty.SYM_SPARSE] := by
  show (ReproduceResults.main testLib testFS 0).1.trace.filter (spOrLoadOf 1) = _
  rw [ReproduceResults.main_ok testLib testFS 0 "rows" "rows" rfl rfl]
  rfl

/-- C2 amended: for every optimizer instance that trains, the driver
performs the step sequence construct, configure penalty, load, select
lambda, train, persist for the omega variant, but for the classical
variant it loads the dataset before configuring the penalty (construct,
load, configure penalty, select lambda, train, persist); in both variants
the penalty is configured before lambda selection and training. -/
theorem driver_step_sequence (L : Library) (fs : FS) (r0 : Nat) (i : Nat)
    (lam : Rat) (rIn rOut : Nat)
    (h : Event.train i lam rIn rOut ∈ (ReproduceResults.main L fs r0).1.trace) :
    ∃ path ps cvIn cvOut sPath bytes,
      (ReproduceResults.main L fs r0).1.trace.filter (instEventsOf i) =
        [Event.construct i Variant.oMHN,
         Event.setPenalty i Penalty.SYM_SPARSE,
         Event.loadData i path,
         Event.lambdaFromCV i ps cvIn cvOut lam,
         Event.train i lam rIn rOut,
         Event.save i sPath bytes] ∨
      (ReproduceResults.main L fs r0).1.trace.filter (instEventsOf i) =
        [Event.construct i Variant.cMHN,
         Event.loadData i path,
         Event.setPenalty i Penalty.SYM_SPARSE,
         Event.lambdaFromCV i ps cvIn cvOut lam,
         Event.train i lam rIn rOut,
         Event.save i sPath bytes] := by
  cases heC : load_data_from_csv L fs PATH_TO_COAD_CSV with
  | error e =>
    rw [ReproduceResults.main_err L fs r0 e heC] at h
    simp [loadFailTail] at h
  | ok dC =>
    cases heL : load_data_from_csv L fs PATH_TO_LUAD_CSV with
    | error e =>
      rw [ReproduceResults.main_mid L fs r0 dC e heC heL] at h ⊢
      simp [datasetTail, loadFailTail] at h
      rcases h with ⟨hi, hl, h1, h2⟩ | ⟨hi, hl, h1, h2⟩ <;>
        subst hi <;> subst hl <;> subst h1 <;> subst h2
      · exact ⟨_, _, _, _, _, _, Or.inl rfl⟩
      · exact ⟨_, _, _, _, _, _, Or.inr rfl⟩
    | ok dL =>
      rw [ReproduceResults.main_ok L fs r0 dC dL heC heL] at h ⊢
      simp [datasetTail] at h
      rcases h with ⟨hi, hl, h1, h2⟩ | ⟨hi, hl, h1, h2⟩ |
        ⟨hi, hl, h1, h2⟩ | ⟨hi, hl, h1, h2⟩ <;>
        subst hi <;> subst hl <;> subst h1 <;> subst h2
      · exact ⟨_, _, _, _, _, _, Or.inl rfl⟩
      · exact ⟨_, _, _, _, _, _, Or.inr rfl⟩
      · exact ⟨_, _, _, _, _, _, Or.inl rfl⟩
      · exact ⟨_, _, _, _, _, _, Or.inr rfl⟩

/-- C2 amended witness: the closed test run's classical COAD instance
(instance 1) follows the construct, load, configure-penalty, select,
train, persist sequence. -/
theorem driver_step_sequence_witness :
    ∃ path ps cvIn cvOut sPath bytes,
      testTrace.filter (instEventsOf 1) =
        [Event.construct 1 Variant.oMHN,
         Event.setPenalty 1 Penalty.SYM_SPARSE,
         Event.loadData 1 path,
         Event.lambdaFromCV 1 ps cvIn cvOut (1/2),
         Event.train 1 (1/2) 3 4,
         Event.save 1 sPath bytes] ∨
      testTrace.filter (instEventsOf 1) =
        [Event.construct 1 Variant.cMHN,
         Event.loadData 1 path,
         Event.setPenalty 1 Penalty.SYM_SPARSE,
         Event.lambdaFromCV 1 ps cvIn cvOut (1/2),
         Event.train 1 (1/2) 3 4,
         Event.save 1 sPath bytes] :=
  driver_step_sequence testLib testFS 0 1 (1/2) 3 4
    (by rw [ReproduceResults.main_ok testLib testFS 0 "rows" "rows" rfl rfl]
        repeat first | exact List.Mem.head _ | apply List.Mem.tail)
